import Mathlib

/-!
Shallow embedding of the Airkeeper update cycle.

The repository contains two generations of the PSP (publish-subscribe) beacon
update handler (`src/psp.ts` holding the monolithic `beaconUpdate`, and the
phased pipeline of `handlers/psp.ts` with `initializeState`, `executeApiCalls`,
`checkSubscriptionsConditions`, `groupSubscriptionsBySponsorWallet`) as well as
the RRP keeper handler (`handlers/rrp.ts`).  External effects (JSON-RPC calls,
HTTP requests, transaction submission, keccak hashing, BIP-32 wallet
derivation) are modelled as oracle inputs: each definition below takes the
outcomes of the external calls it performs as explicit arguments, exactly at
the points where the TypeScript awaits them, and the control flow between
those points is translated statement by statement.
-/

namespace Airkeeper

/-- `ethers.constants.AddressZero`: the void signer used for read-only calls. -/
def addressZero : String := "0x0000000000000000000000000000000000000000"

/-- A gas target as returned by `getGasPrice` (legacy or EIP-1559 fields). -/
structure GasTarget where
  gasPrice : Option Nat
  maxFeePerGas : Option Nat
  maxPriorityFeePerGas : Option Nat
deriving Repr, DecidableEq

/-! ### Chain filtering guards (C6)

`src/psp.ts` lines 57-60 and the legacy handler both compute
`evmChains = chains.filter((chain) => chain.type === 'evm')` and then test
`isEmpty(chains)`; `handlers/rrp.ts` lines 134-137 (and the phased PSP
pipeline) test `isEmpty(evmChains)` instead.  Both guards are embedded so the
difference can be evaluated. -/

/-- One entry of the merged `chains` array (only the fields the guards read). -/
structure ChainEntry where
  id : String
  type : String
deriving Repr, DecidableEq

/-- `chains.filter((chain) => chain.type === 'evm')`. -/
def evmChainsOf (chains : List ChainEntry) : List ChainEntry :=
  chains.filter fun chain => chain.type = "evm"

/-- The guard of `src/psp.ts` `beaconUpdate` (also of the legacy RRP handler):
filters `evmChains` but throws only when the whole `chains` list is empty. -/
def pspChainGuard (chains : List ChainEntry) : Except String (List ChainEntry) :=
  let evmChains := evmChainsOf chains
  if chains.isEmpty then
    Except.error "One or more evm compatible chain(s) must be defined in the provided config"
  else
    Except.ok evmChains

/-- The guard of `handlers/rrp.ts` (and of `initializeProviders` in the phased
PSP pipeline): throws when `evmChains` is empty. -/
def rrpChainGuard (chains : List ChainEntry) : Except String (List ChainEntry) :=
  let evmChains := evmChainsOf chains
  if evmChains.isEmpty then
    Except.error "One or more evm compatible chain(s) must be defined in the provided config"
  else
    Except.ok evmChains

/-! ### Sponsor wallet derivation (C9)

The BIP-32 derivation itself is external (`deriveSponsorWallet` /
`node.evm.deriveSponsorWalletFromMnemonic`); the definitions below record
which `(mnemonic, sponsor, protocolId)` triple each code path feeds into it. -/

/-- `const pspProtocolId = '2'` of `get-sponsor-wallet-and-transaction-count.ts`. -/
def pspProtocolId : String := "2"

/-- Sponsor wallet used by `getSponsorWalletAndTransactionCount` (the phased
PSP pipeline): `deriveSponsorWallet(airnodeWallet.mnemonic.phrase, sponsor,
pspProtocolId)`. -/
def pspPipelineSponsorWallet (derive : String → String → String → α)
    (mnemonic sponsor : String) : α :=
  derive mnemonic sponsor pspProtocolId

/-- Sponsor wallet used by `beaconUpdate` in `src/psp.ts` lines 347-351:
`deriveSponsorWallet(nodeSettings.airnodeWalletMnemonic, sponsor, '3')`. -/
def beaconUpdateSponsorWallet (derive : String → String → String → α)
    (mnemonic sponsor : String) : α :=
  derive mnemonic sponsor "3"

/-- Keeper sponsor wallet used by `handlers/rrp.ts` line 188-190:
`deriveSponsorWalletFromMnemonic(mnemonic, keeperSponsor, '12345')`. -/
def rrpKeeperSponsorWallet (derive : String → String → String → α)
    (mnemonic sponsor : String) : α :=
  derive mnemonic sponsor "12345"

/-! ### The per-sponsor subscription loop of `src/psp.ts` (C1, C2, C5)

`beaconUpdate` processes one sponsor's subscriptions in a `for` loop that
threads a mutable `nonce`, initialised to the transaction count fetched for
the sponsor wallet at `currentBlock`.  Each loop iteration performs a chain of
guarded external calls and `continue`s on failure; only the final
`fulfillPspBeaconUpdate` submission consumes the nonce (`nonce: nonce++`).
The external outcomes of one iteration are recorded in `PspSubOracle`. -/

/-- Outcomes of the external calls made while processing one subscription in
the `beaconUpdate` loop (`src/psp.ts` lines 464-614). -/
structure PspSubOracle where
  /-- `templates[subscription.templateId]`; the template payload is opaque. -/
  template : Option String
  /-- `retryGo(() => readApiValue(...))` followed by `data[subscription.id]`:
  `none` models the failed call, `some none` a missing API value. -/
  apiResult : Option (Option Int)
  /-- decoding `subscription.conditions` and resolving the condition function
  by selector; `some p` carries the decoded `_conditionParameters`. -/
  decodedCondition : Option String
  /-- the static condition call as a function of the caller address (the code
  connects the contract to the void signer); `none` models a failed call. -/
  conditionResult : String → Option Bool
  /-- `getGasPrice` result. -/
  gasTarget : Option GasTarget
  /-- whether the `fulfillPspBeaconUpdate` submission succeeds. -/
  submitOk : Bool

/-- Terminal state of one subscription within one cycle. -/
inductive SubOutcome where
  | skippedNoTemplate
  | skippedApiCallFailed
  | skippedNoApiValue
  | skippedConditionDecodeFailed
  | skippedConditionCheckFailed
  | skippedConditionsNotMet
  | skippedNoGasTarget
  | submitFailed (nonce : Nat)
  | submitted (nonce : Nat)
deriving Repr, DecidableEq

/-- `true` exactly when a `fulfillPspBeaconUpdate` transaction was handed to
the provider (successfully or not), i.e. when a nonce was consumed. -/
def SubOutcome.isSubmitAttempt : SubOutcome → Bool
  | .submitFailed _ => true
  | .submitted _ => true
  | _ => false

/-- The nonce a submission attempt used, if the outcome is one. -/
def SubOutcome.attemptNonce : SubOutcome → Option Nat
  | .submitFailed n => some n
  | .submitted n => some n
  | _ => none

/-- One iteration of the `beaconUpdate` subscription loop: the guard chain of
`src/psp.ts` lines 464-614, returning the outcome and the next nonce.  The
condition call is made from `addressZero` (the void signer).  `retryGo` is
not under `src/`; it is modelled from the spec as a combinator returning a
single success-or-error result for the wrapped external call. -/
def processPspSubscription (o : PspSubOracle) (nonce : Nat) : SubOutcome × Nat :=
  match o.template with
  | none => (.skippedNoTemplate, nonce)
  | some _ =>
    match o.apiResult with
    | none => (.skippedApiCallFailed, nonce)
    | some none => (.skippedNoApiValue, nonce)
    | some (some _) =>
      match o.decodedCondition with
      | none => (.skippedConditionDecodeFailed, nonce)
      | some _ =>
        match o.conditionResult addressZero with
        | none => (.skippedConditionCheckFailed, nonce)
        | some false => (.skippedConditionsNotMet, nonce)
        | some true =>
          match o.gasTarget with
          | none => (.skippedNoGasTarget, nonce)
          | some _ =>
            if o.submitOk then (.submitted nonce, nonce + 1)
            else (.submitFailed nonce, nonce + 1)

/-- The whole per-sponsor loop: subscriptions (tagged by id) are processed in
order, threading the nonce, starting from the fetched transaction count. -/
def processPspSponsorWallet (subs : List (String × PspSubOracle)) (nonce : Nat) :
    List (String × SubOutcome) :=
  match subs with
  | [] => []
  | (id, o) :: rest =>
    let r := processPspSubscription o nonce
    (id, r.1) :: processPspSponsorWallet rest r.2

/-- The nonces of the submission attempts of a processed sponsor, in order. -/
def attemptNonces (outs : List (String × SubOutcome)) : List Nat :=
  outs.filterMap fun p => p.2.attemptNonce

/-- `groupSubscriptionsBySposorWallet` in the phased pipeline assigns
`nonce: data.transactionCount + idx` to the sponsor's subscriptions by
`subscriptionsBySponsor[data.sponsor].map((subscription, idx) => ...)`. -/
def assignNonces (transactionCount : Nat) (subs : List α) : List (α × Nat) :=
  subs.mapIdx fun idx subscription => (subscription, transactionCount + idx)

/-- Each iteration either leaves the nonce unchanged with no submission
attempt, or consumes exactly the current nonce. -/
theorem processPspSubscription_step (o : PspSubOracle) (n : Nat) :
    ((processPspSubscription o n).1.attemptNonce = none
        ∧ (processPspSubscription o n).2 = n)
      ∨ ((processPspSubscription o n).1.attemptNonce = some n
        ∧ (processPspSubscription o n).2 = n + 1) := by
  unfold processPspSubscription
  rcases o.template with _ | t
  · exact Or.inl ⟨rfl, rfl⟩
  rcases o.apiResult with _ | (_ | v)
  · exact Or.inl ⟨rfl, rfl⟩
  · exact Or.inl ⟨rfl, rfl⟩
  rcases o.decodedCondition with _ | p
  · exact Or.inl ⟨rfl, rfl⟩
  rcases hc : o.conditionResult addressZero with _ | (_ | _)
  · exact Or.inl ⟨rfl, rfl⟩
  · exact Or.inl ⟨rfl, rfl⟩
  rcases o.gasTarget with _ | g
  · exact Or.inl ⟨rfl, rfl⟩
  by_cases hs : o.submitOk <;> simp [hs, SubOutcome.attemptNonce]

theorem attemptNonces_processPspSponsorWallet (subs : List (String × PspSubOracle))
    (n : Nat) :
    attemptNonces (processPspSponsorWallet subs n)
      = List.range' n (attemptNonces (processPspSponsorWallet subs n)).length := by
  induction subs generalizing n with
  | nil => rfl
  | cons hd rest ih =>
    obtain ⟨id, o⟩ := hd
    rcases processPspSubscription_step o n with ⟨h1, h2⟩ | ⟨h1, h2⟩ <;>
      simp only [processPspSponsorWallet, attemptNonces, List.filterMap_cons, h1, h2] <;>
      simpa [attemptNonces, List.range'] using ih _

theorem mapIdx_congr_fun (l : List α) (f g : Nat → α → β) (h : ∀ i a, f i a = g i a) :
    l.mapIdx f = l.mapIdx g := by
  induction l generalizing f g with
  | nil => rfl
  | cons hd rest ih =>
    simp only [List.mapIdx_cons, h 0 hd]
    exact congrArg _ (ih _ _ fun i a => h (i + 1) a)

theorem assignNonces_snd (transactionCount : Nat) (subs : List α) :
    (assignNonces transactionCount subs).map Prod.snd
      = List.range' transactionCount subs.length := by
  unfold assignNonces
  induction subs generalizing transactionCount with
  | nil => rfl
  | cons hd rest ih =>
    simp only [List.mapIdx_cons, List.map_cons, List.length_cons, List.range'_succ,
      Nat.add_zero]
    refine congrArg (transactionCount :: ·) ?_
    rw [mapIdx_congr_fun rest (fun i a => (a, transactionCount + (i + 1)))
      (fun i a => (a, transactionCount + 1 + i)) (by intro i a; simp; omega)]
    exact ih (transactionCount + 1)

/-- An oracle whose subscription passes every gate but whose submission fails. -/
def pspFailingOracle : PspSubOracle where
  template := some "template"
  apiResult := some (some 723392020)
  decodedCondition := some "conditionParameters"
  conditionResult := fun _ => some true
  gasTarget := some { gasPrice := some 1000, maxFeePerGas := none, maxPriorityFeePerGas := none }
  submitOk := false

/-- An oracle whose subscription passes every gate and submits successfully. -/
def pspSucceedingOracle : PspSubOracle where
  template := some "template"
  apiResult := some (some 41091123450)
  decodedCondition := some "conditionParameters"
  conditionResult := fun _ => some true
  gasTarget := some { gasPrice := some 1000, maxFeePerGas := none, maxPriorityFeePerGas := none }
  submitOk := true

/-- An oracle whose condition call returns `false`. -/
def pspConditionFalseOracle : PspSubOracle where
  template := some "template"
  apiResult := some (some 723392020)
  decodedCondition := some "conditionParameters"
  conditionResult := fun _ => some false
  gasTarget := some { gasPrice := some 1000, maxFeePerGas := none, maxPriorityFeePerGas := none }
  submitOk := true

/-! ### The per-job loop of `handlers/rrp.ts` (C3, C7, C10)

For one keeper sponsor, `handler` iterates `rrpBeaconServerKeeperJobs` in
serial, threading `nextNonce` from the fetched transaction count.  Ethers
`BigNumber` arithmetic on the non-negative quantities involved is modelled by
`Nat` arithmetic (integer division truncates toward zero, which on `Nat`
agrees with floor division); the fetched API value, an `int256`, is an
`Int`. -/

/-- `ethers.utils.parseUnits('1', 16)`: the 16-decimal basis point unit. -/
def basisPoints : Nat := 10 ^ 16

/-- `beaconValue.sub(apiValue).abs()` (the beacon value is a `uint128`). -/
def rrpDelta (beaconValue : Nat) (apiValue : Int) : Nat :=
  ((beaconValue : Int) - apiValue).natAbs

/-- `beaconResponse.value.isZero() ? ethers.constants.One : beaconResponse.value`. -/
def effectiveBeaconValue (beaconValue : Nat) : Nat :=
  if beaconValue = 0 then 1 else beaconValue

/-- `delta.mul(basisPoints).mul(100).div(beaconValue)` of `handlers/rrp.ts`
line 317 (with `beaconValue` already replaced by one when zero). -/
def rrpDeviation (beaconValue : Nat) (apiValue : Int) : Nat :=
  rrpDelta beaconValue apiValue * basisPoints * 100 / effectiveBeaconValue beaconValue

/-- `basisPoints.mul(Number(deviationPercentage) * 100)`: `dpTimes100` is the
validated integer `Number(deviationPercentage) * 100`. -/
def percentageThreshold (dpTimes100 : Nat) : Nat :=
  basisPoints * dpTimes100

/-- `if (chainIds && !chainIds.includes(chain.id)) continue` of line 251. -/
def chainMismatch (chainIds : Option (List String)) (chainId : String) : Bool :=
  match chainIds with
  | some ids => !ids.contains chainId
  | none => false

/-- A `RequestedBeaconUpdate` or `UpdatedBeacon` event (only the `requestId`
argument is consulted). -/
structure RrpEvent where
  requestId : String
deriving Repr, DecidableEq

/-- Lines 376-378: the destructured head of
`requestedBeaconUpdateEvents.filter((rbue) => !updatedBeaconEvents.some((ub) =>
rbue.args.requestId === ub.args.requestId))`. -/
def pendingRequestedBeaconUpdateEvent (requested updated : List RrpEvent) :
    Option RrpEvent :=
  (requested.filter fun rbue => !updated.any fun ub => rbue.requestId = ub.requestId).head?

/-- One `rrpBeaconServerKeeperJobs` trigger (the fields the loop reads). -/
structure RrpJob where
  chainIds : Option (List String)
  templateId : String
  /-- `Number(deviationPercentage) * 100`, an integer once validation passed. -/
  dpTimes100 : Nat
  requestSponsor : String
deriving Repr, DecidableEq

/-- Outcomes of the external calls made while processing one RRP keeper job
(`handlers/rrp.ts` lines 255-452). -/
structure RrpJobOracle where
  /-- `logsAndApiValuesByBeaconId[beaconId].apiValue`; `none` models `null`. -/
  apiValue : Option Int
  /-- the `Number`-based validation of `deviationPercentage` (line 272-277);
  its floating-point semantics are kept abstract. -/
  validDeviationPercentage : Bool
  /-- `retryGo(() => rrpBeaconServer.connect(voidSigner).readBeacon(beaconId))`:
  the `uint128` beacon value, `none` on error. -/
  beaconValue : Option Nat
  /-- `queryFilter(requestedBeaconUpdateFilter, ...)`; `none` on error. -/
  requestedEvents : Option (List RrpEvent)
  /-- `queryFilter(updatedBeaconFilter, ...)`; `none` on error. -/
  updatedEvents : Option (List RrpEvent)
  /-- `airnodeRrp.requestIsAwaitingFulfillment(requestId)`; `none` on error. -/
  requestIsAwaitingFulfillment : String → Option Bool
  /-- `getGasPrice` result. -/
  gasTarget : Option GasTarget
  /-- whether the `requestBeaconUpdate` submission succeeds. -/
  submitOk : Bool

/-- Terminal state of one RRP keeper job within one cycle. -/
inductive RrpJobOutcome where
  | skippedChainMismatch
  | skippedNoApiValue
  | skippedInvalidDeviationPercentage
  | skippedReadBeaconFailed
  | skippedBeaconUpToDate
  | skippedWithinThreshold
  | skippedRequestedEventsFailed
  | skippedUpdatedEventsFailed
  | skippedAwaitingCheckFailed
  | skippedAwaitingFulfillment
  | skippedNoGasTarget
  | submitFailed (nonce : Nat)
  | submitted (nonce : Nat)
deriving Repr, DecidableEq

/-- `true` exactly when a `requestBeaconUpdate` transaction was handed to the
provider (successfully or not), i.e. when a nonce was consumed. -/
def RrpJobOutcome.isSubmitAttempt : RrpJobOutcome → Bool
  | .submitFailed _ => true
  | .submitted _ => true
  | _ => false

/-- Lines 397-452: gas fetch and `requestBeaconUpdate` submission with
`const nonce = nextNonce++`. -/
def submitRrpUpdate (o : RrpJobOracle) (nonce : Nat) : RrpJobOutcome × Nat :=
  match o.gasTarget with
  | none => (.skippedNoGasTarget, nonce)
  | some _ =>
    if o.submitOk then (.submitted nonce, nonce + 1) else (.submitFailed nonce, nonce + 1)

/-- One iteration of the `rrpBeaconServerKeeperJobs` loop of
`handlers/rrp.ts` lines 222-452 for the chain `chainId`, returning the
outcome and the next nonce. -/
def processRrpJob (chainId : String) (job : RrpJob) (o : RrpJobOracle) (nonce : Nat) :
    RrpJobOutcome × Nat :=
  if chainMismatch job.chainIds chainId then (.skippedChainMismatch, nonce)
  else
    match o.apiValue with
    | none => (.skippedNoApiValue, nonce)
    | some apiValue =>
      if !o.validDeviationPercentage then (.skippedInvalidDeviationPercentage, nonce)
      else
        match o.beaconValue with
        | none => (.skippedReadBeaconFailed, nonce)
        | some beaconValue =>
          if rrpDelta beaconValue apiValue = 0 then (.skippedBeaconUpToDate, nonce)
          else if rrpDeviation beaconValue apiValue
              ≤ percentageThreshold job.dpTimes100 / 100 then
            (.skippedWithinThreshold, nonce)
          else
            match o.requestedEvents with
            | none => (.skippedRequestedEventsFailed, nonce)
            | some requested =>
              match o.updatedEvents with
              | none => (.skippedUpdatedEventsFailed, nonce)
              | some updated =>
                match pendingRequestedBeaconUpdateEvent requested updated with
                | some ev =>
                  match o.requestIsAwaitingFulfillment ev.requestId with
                  | none => (.skippedAwaitingCheckFailed, nonce)
                  | some true => (.skippedAwaitingFulfillment, nonce)
                  | some false => submitRrpUpdate o nonce
                | none => submitRrpUpdate o nonce

/-- A submission attempt can only be reached once the up-to-date and
threshold gates have passed for the read beacon value and the cached API
value. -/
theorem processRrpJob_submit_gate (chainId : String) (job : RrpJob) (o : RrpJobOracle)
    (n b : Nat) (a : Int) (hb : o.beaconValue = some b) (ha : o.apiValue = some a)
    (hsub : (processRrpJob chainId job o n).1.isSubmitAttempt = true) :
    rrpDelta b a ≠ 0 ∧ percentageThreshold job.dpTimes100 / 100 < rrpDeviation b a := by
  unfold processRrpJob at hsub
  cases hcm : chainMismatch job.chainIds chainId with
  | true => simp [hcm, RrpJobOutcome.isSubmitAttempt] at hsub
  | false =>
    simp only [hcm, Bool.false_eq_true, if_false, ha, hb] at hsub
    cases hv : o.validDeviationPercentage with
    | false => simp [hv, RrpJobOutcome.isSubmitAttempt] at hsub
    | true =>
      simp only [hv, Bool.not_true, Bool.false_eq_true, if_false] at hsub
      by_cases hdel : rrpDelta b a = 0
      · simp [hdel, RrpJobOutcome.isSubmitAttempt] at hsub
      · by_cases hth : rrpDeviation b a ≤ percentageThreshold job.dpTimes100 / 100
        · simp [hdel, hth, RrpJobOutcome.isSubmitAttempt] at hsub
        · exact ⟨hdel, Nat.lt_of_not_le hth⟩

/-- When the first unmatched `RequestedBeaconUpdate` event is awaiting
fulfillment, the job never reaches submission and the nonce is untouched. -/
theorem processRrpJob_awaiting_skip (chainId : String) (job : RrpJob) (o : RrpJobOracle)
    (n : Nat) (requested updated : List RrpEvent) (ev : RrpEvent)
    (hreq : o.requestedEvents = some requested) (hupd : o.updatedEvents = some updated)
    (hpend : pendingRequestedBeaconUpdateEvent requested updated = some ev)
    (haw : o.requestIsAwaitingFulfillment ev.requestId = some true) :
    (processRrpJob chainId job o n).1.isSubmitAttempt = false
      ∧ (processRrpJob chainId job o n).2 = n := by
  unfold processRrpJob
  cases hcm : chainMismatch job.chainIds chainId with
  | true => exact ⟨rfl, rfl⟩
  | false =>
    rcases hav : o.apiValue with _ | a
    · simp [hav, RrpJobOutcome.isSubmitAttempt]
    cases hv : o.validDeviationPercentage with
    | false => simp [hav, hv, RrpJobOutcome.isSubmitAttempt]
    | true =>
      rcases hbv : o.beaconValue with _ | b
      · simp [hav, hv, hbv, RrpJobOutcome.isSubmitAttempt]
      by_cases hdel : rrpDelta b a = 0
      · simp [hav, hv, hbv, hdel, RrpJobOutcome.isSubmitAttempt]
      · by_cases hth : rrpDeviation b a ≤ percentageThreshold job.dpTimes100 / 100
        · simp [hav, hv, hbv, hdel, hth, RrpJobOutcome.isSubmitAttempt]
        · simp [hav, hv, hbv, hdel, hth, hreq, hupd, hpend, haw,
            RrpJobOutcome.isSubmitAttempt]

theorem effectiveBeaconValue_eq_max (b : Nat) : effectiveBeaconValue b = max b 1 := by
  unfold effectiveBeaconValue
  split <;> omega

/-- The code's `delta * 10^16 * 100 / beaconValue` equals the specified
`|beacon - api| * 10^18 / max(beacon, 1)`. -/
theorem rrpDeviation_formula (b : Nat) (a : Int) :
    rrpDeviation b a = ((b : Int) - a).natAbs * 10 ^ 18 / max b 1 := by
  unfold rrpDeviation rrpDelta basisPoints
  rw [effectiveBeaconValue_eq_max]
  have h : ((b : Int) - a).natAbs * 10 ^ 16 * 100 = ((b : Int) - a).natAbs * 10 ^ 18 := by
    rw [Nat.mul_assoc]
    norm_num
  rw [h]

/-- `basisPoints.mul(dpTimes100).div(100)` is exactly `dpTimes100 * 10^14`:
the threshold corresponding to `deviationPercentage` percent in the
`10^18`-scaled deviation representation. -/
theorem percentageThreshold_div (d : Nat) : percentageThreshold d / 100 = d * 10 ^ 14 := by
  unfold percentageThreshold basisPoints
  rw [show (10 : Nat) ^ 16 * d = 100 * (d * 10 ^ 14) by
    rw [show (10 : Nat) ^ 16 = 100 * 10 ^ 14 by norm_num]; ring]
  exact Nat.mul_div_cancel_left _ (by norm_num)

/-- With the chain filter passed, `skippedChainMismatch` is unreachable. -/
theorem processRrpJob_not_chainSkip (chainId : String) (job : RrpJob) (o : RrpJobOracle)
    (n : Nat) (h : chainMismatch job.chainIds chainId = false) :
    (processRrpJob chainId job o n).1 ≠ RrpJobOutcome.skippedChainMismatch := by
  unfold processRrpJob
  simp only [h, Bool.false_eq_true, if_false]
  repeat' split
  all_goals try simp
  all_goals (unfold submitRrpUpdate; repeat' split) <;> simp

/-- An RRP keeper job with no `chainIds` field and a 1% deviation threshold. -/
def rrpGateJob : RrpJob where
  chainIds := none
  templateId := "0xtemplate"
  dpTimes100 := 100
  requestSponsor := "0xsponsor"

/-- An oracle for `rrpGateJob` whose beacon deviates by 100% and which has no
pending events: the job submits. -/
def rrpGateOracle : RrpJobOracle where
  apiValue := some 200
  validDeviationPercentage := true
  beaconValue := some 100
  requestedEvents := some []
  updatedEvents := some []
  requestIsAwaitingFulfillment := fun _ => some false
  gasTarget := some { gasPrice := some 1000, maxFeePerGas := none, maxPriorityFeePerGas := none }
  submitOk := true

/-- An oracle with two unmatched `RequestedBeaconUpdate` events where only the
second one is awaiting fulfillment: the code consults only the first. -/
def rrpDupOracle : RrpJobOracle where
  apiValue := some 200
  validDeviationPercentage := true
  beaconValue := some 100
  requestedEvents := some [⟨"r1"⟩, ⟨"r2"⟩]
  updatedEvents := some []
  requestIsAwaitingFulfillment := fun r => some (decide (r = "r2"))
  gasTarget := some { gasPrice := some 1000, maxFeePerGas := none, maxPriorityFeePerGas := none }
  submitOk := true

/-- An oracle whose single unmatched `RequestedBeaconUpdate` event is awaiting
fulfillment. -/
def rrpAwaitingOracle : RrpJobOracle where
  apiValue := some 200
  validDeviationPercentage := true
  beaconValue := some 100
  requestedEvents := some [⟨"r1"⟩]
  updatedEvents := some []
  requestIsAwaitingFulfillment := fun _ => some true
  gasTarget := some { gasPrice := some 1000, maxFeePerGas := none, maxPriorityFeePerGas := none }
  submitOk := true

/-! ### `initializeState` of the phased PSP pipeline (C4)

`initializeState` filters `triggers.protoPsp` against the subscription map,
recomputes each subscription id as the Keccak-256 of the ABI encoding of the
nine canonical fields and drops mismatches, then groups survivors by
`templateId` and validates templates and endpoints the same way.  The three
hash computations are external (`ethers.utils`); they enter the model as the
`HashModel` parameter, so every theorem below holds for the real Keccak
instances in particular. -/

/-- The nine canonical subscription fields of the `Subscription` type (the
encoded byte strings are kept opaque). -/
structure SubscriptionFields where
  chainId : String
  airnodeAddress : String
  templateId : String
  parameters : String
  conditions : String
  relayer : String
  sponsor : String
  requester : String
  fulfillFunctionId : String
deriving Repr, DecidableEq

/-- A template: `{endpointId, templateParameters}`. -/
structure Template where
  endpointId : String
  templateParameters : String
deriving Repr, DecidableEq

/-- An endpoint: `{oisTitle, endpointName}`. -/
structure Endpoint where
  oisTitle : String
  endpointName : String
deriving Repr, DecidableEq

/-- The external id derivations: `keccak256(abiEncode([...9 fields]))` for
subscriptions, `solidityKeccak256([endpointId, templateParameters])` for
templates, `keccak256(abiEncode([oisTitle, endpointName]))` for endpoints. -/
structure HashModel where
  deriveSubscriptionId : SubscriptionFields → String
  deriveTemplateId : String → String → String
  deriveEndpointId : String → String → String

/-- The parts of the merged config that `initializeState` reads. -/
structure PspConfig where
  protoPsp : List String
  subscriptions : String → Option SubscriptionFields
  templates : String → Option Template
  endpoints : String → Option Endpoint

/-- The `triggers.protoPsp.reduce` of `initializeState`: look up each
subscription id, recompute the expected id over the nine canonical fields and
keep the subscription only when they agree. -/
def enabledSubscriptions (h : HashModel) (cfg : PspConfig) :
    List (String × SubscriptionFields) :=
  cfg.protoPsp.filterMap fun subscriptionId =>
    match cfg.subscriptions subscriptionId with
    | none => none
    | some subscription =>
      if subscriptionId ≠ h.deriveSubscriptionId subscription then none
      else some (subscriptionId, subscription)

/-- One step of lodash `groupBy`: append to the group of the key if present,
otherwise start a new group (key order is first-occurrence order). -/
def groupInsert (key : α → String) (acc : List (String × List α)) (a : α) :
    List (String × List α) :=
  if acc.any fun p => p.1 = key a then
    acc.map fun p => if p.1 = key a then (p.1, p.2 ++ [a]) else p
  else acc ++ [(key a, [a])]

/-- lodash `groupBy(l, key)` as an insertion-ordered association list. -/
def groupByKey (key : α → String) (l : List α) : List (String × List α) :=
  l.foldl (groupInsert key) []

/-- A `GroupedSubscriptions` work unit: subscriptions sharing a template. -/
structure GroupedSubscriptions where
  subscriptions : List (String × SubscriptionFields)
  templateId : String
  template : Template
  endpoint : Endpoint
deriving Repr, DecidableEq

/-- The grouping half of `initializeState`: group the enabled subscriptions
by `templateId`, then look up and verify the template and its endpoint. -/
def groupedSubscriptionsOf (h : HashModel) (cfg : PspConfig) :
    List GroupedSubscriptions :=
  (groupByKey (fun p => p.2.templateId) (enabledSubscriptions h cfg)).filterMap
    fun g =>
      match cfg.templates g.1 with
      | none => none
      | some template =>
        if h.deriveTemplateId template.endpointId template.templateParameters ≠ g.1 then
          none
        else
          match cfg.endpoints template.endpointId with
          | none => none
          | some endpoint =>
            if h.deriveEndpointId endpoint.oisTitle endpoint.endpointName
                ≠ template.endpointId then none
            else some ⟨g.2, g.1, template, endpoint⟩

theorem mem_enabledSubscriptions (h : HashModel) (cfg : PspConfig)
    (p : String × SubscriptionFields) (hp : p ∈ enabledSubscriptions h cfg) :
    cfg.subscriptions p.1 = some p.2 ∧ p.1 = h.deriveSubscriptionId p.2 := by
  unfold enabledSubscriptions at hp
  rcases List.mem_filterMap.1 hp with ⟨subscriptionId, _, heq⟩
  rcases hsub : cfg.subscriptions subscriptionId with _ | subscription
  · simp only [hsub] at heq
    exact Option.noConfusion heq
  · simp only [hsub] at heq
    by_cases hid : subscriptionId ≠ h.deriveSubscriptionId subscription
    · rw [if_pos hid] at heq
      exact absurd heq (by simp)
    · rw [if_neg hid] at heq
      cases heq
      push_neg at hid
      exact ⟨hsub, hid⟩

theorem mem_groupInsert (key : α → String) (acc : List (String × List α)) (a : α)
    (p : String × List α) (x : α) (hp : p ∈ groupInsert key acc a) (hx : x ∈ p.2) :
    (∃ q ∈ acc, x ∈ q.2) ∨ x = a := by
  unfold groupInsert at hp
  by_cases hany : acc.any fun q => q.1 = key a
  · rw [if_pos hany] at hp
    rcases List.mem_map.1 hp with ⟨q, hq, rfl⟩
    by_cases hkey : q.1 = key a
    · rw [if_pos hkey] at hx
      rcases List.mem_append.1 hx with hx | hx
      · exact Or.inl ⟨q, hq, hx⟩
      · exact Or.inr (List.mem_singleton.1 hx)
    · rw [if_neg hkey] at hx
      exact Or.inl ⟨q, hq, hx⟩
  · rw [if_neg hany] at hp
    rcases List.mem_append.1 hp with hp | hp
    · exact Or.inl ⟨p, hp, hx⟩
    · cases List.mem_singleton.1 hp
      exact Or.inr (List.mem_singleton.1 hx)

theorem mem_groupByKey_go (key : α → String) (l : List α) :
    ∀ (acc : List (String × List α)) (p : String × List α) (x : α),
      p ∈ l.foldl (groupInsert key) acc → x ∈ p.2 → (∃ q ∈ acc, x ∈ q.2) ∨ x ∈ l := by
  induction l with
  | nil =>
    intro acc p x hp hx
    exact Or.inl ⟨p, hp, hx⟩
  | cons a l ih =>
    intro acc p x hp hx
    rw [List.foldl_cons] at hp
    rcases ih (groupInsert key acc a) p x hp hx with ⟨q, hq, hxq⟩ | hxl
    · rcases mem_groupInsert key acc a q x hq hxq with hacc | rfl
      · exact Or.inl hacc
      · exact Or.inr (List.mem_cons_self _ _)
    · exact Or.inr (List.mem_cons_of_mem _ hxl)

/-- Every element of a group produced by `groupByKey` is an element of the
grouped list. -/
theorem mem_groupByKey (key : α → String) (l : List α) (p : String × List α) (x : α)
    (hp : p ∈ groupByKey key l) (hx : x ∈ p.2) : x ∈ l := by
  rcases mem_groupByKey_go key l [] p x hp hx with ⟨q, hq, _⟩ | hxl
  · exact absurd hq (List.not_mem_nil q)
  · exact hxl

/-- Every subscription of a grouped work unit survived the
`enabledSubscriptions` filter. -/
theorem mem_groupedSubscriptions (h : HashModel) (cfg : PspConfig)
    (g : GroupedSubscriptions) (hg : g ∈ groupedSubscriptionsOf h cfg)
    (s : String × SubscriptionFields) (hs : s ∈ g.subscriptions) :
    s ∈ enabledSubscriptions h cfg := by
  unfold groupedSubscriptionsOf at hg
  rcases List.mem_filterMap.1 hg with ⟨g0, hg0, heq⟩
  rcases htpl : cfg.templates g0.1 with _ | template
  · simp only [htpl] at heq
    exact Option.noConfusion heq
  simp only [htpl] at heq
  by_cases h1 : h.deriveTemplateId template.endpointId template.templateParameters ≠ g0.1
  · rw [if_pos h1] at heq
    exact absurd heq (by simp)
  rw [if_neg h1] at heq
  rcases hep : cfg.endpoints template.endpointId with _ | endpoint
  · simp only [hep] at heq
    exact Option.noConfusion heq
  simp only [hep] at heq
  by_cases h2 : h.deriveEndpointId endpoint.oisTitle endpoint.endpointName
      ≠ template.endpointId
  · rw [if_pos h2] at heq
    exact absurd heq (by simp)
  rw [if_neg h2] at heq
  cases heq
  exact mem_groupByKey (fun p => p.2.templateId) (enabledSubscriptions h cfg) g0 s hg0 hs

/-! ### `executeApiCalls` of the phased PSP pipeline (C8)

One API call is made per work unit; the results are folded into
`apiValuesBySubscriptionId` (`{...acc, ...}` is right-biased, so a later unit
overrides an earlier one on a shared subscription id).  A unit whose `go`
wrapper failed or whose `callApi` returned `null` contributes nothing. -/

/-- The body of the `responses.reduce` of `executeApiCalls`: `none` models a
failed `go(callApi(...))`, `some none` a `null` API value. -/
def applyApiCallResult (apiCallResult : String → Option (Option Int))
    (acc : String → Option Int) (unit : GroupedSubscriptions) : String → Option Int :=
  match apiCallResult unit.templateId with
  | none => acc
  | some none => acc
  | some (some v) =>
    fun subscriptionId =>
      if unit.subscriptions.any fun p => p.1 = subscriptionId then some v
      else acc subscriptionId

/-- `executeApiCalls`: the `apiValuesBySubscriptionId` map produced by the
API-call phase, as a function from subscription id to cached value. -/
def executeApiCalls (units : List GroupedSubscriptions)
    (apiCallResult : String → Option (Option Int)) : String → Option Int :=
  units.foldl (applyApiCallResult apiCallResult) (fun _ => none)

theorem executeApiCalls_go_agree (tid id : String)
    (o o' : String → Option (Option Int)) (ho : ∀ t, t ≠ tid → o t = o' t) :
    ∀ (units : List GroupedSubscriptions) (acc acc' : String → Option Int),
      (∀ w ∈ units, w.templateId = tid → ∀ p ∈ w.subscriptions, p.1 ≠ id) →
      acc id = acc' id →
      (units.foldl (applyApiCallResult o) acc) id
        = (units.foldl (applyApiCallResult o') acc') id := by
  intro units
  induction units with
  | nil =>
    intro acc acc' _ hacc
    simpa using hacc
  | cons u us ih =>
    intro acc acc' h hacc
    rw [List.foldl_cons, List.foldl_cons]
    refine ih _ _ (fun w hw => h w (List.mem_cons_of_mem u hw)) ?_
    by_cases ht : u.templateId = tid
    · have hid : ∀ p ∈ u.subscriptions, p.1 ≠ id := h u (List.mem_cons_self u us) ht
      have hany : (u.subscriptions.any fun p => p.1 = id) = false := by
        simp only [List.any_eq_false, decide_eq_true_eq]
        exact hid
      unfold applyApiCallResult
      rcases o u.templateId with _ | (_ | v) <;> rcases o' u.templateId with _ | (_ | w) <;>
        simp [hany, hacc]
    · have hsame : o u.templateId = o' u.templateId := ho _ ht
      unfold applyApiCallResult
      rw [hsame]
      rcases o' u.templateId with _ | (_ | v) <;> simp [hacc]

theorem executeApiCalls_go_none (id : String) (o : String → Option (Option Int)) :
    ∀ (units : List GroupedSubscriptions) (acc : String → Option Int),
      (∀ w ∈ units, (∃ p ∈ w.subscriptions, p.1 = id) →
        o w.templateId = none ∨ o w.templateId = some none) →
      acc id = none →
      (units.foldl (applyApiCallResult o) acc) id = none := by
  intro units
  induction units with
  | nil =>
    intro acc _ hacc
    simpa using hacc
  | cons u us ih =>
    intro acc h hacc
    rw [List.foldl_cons]
    refine ih _ (fun w hw => h w (List.mem_cons_of_mem u hw)) ?_
    unfold applyApiCallResult
    rcases hu : o u.templateId with _ | (_ | v)
    · exact hacc
    · exact hacc
    · have hany : (u.subscriptions.any fun p => p.1 = id) = false := by
        simp only [List.any_eq_false, decide_eq_true_eq]
        intro p hp hpid
        rcases h u (List.mem_cons_self u us) ⟨p, hp, hpid⟩ with hc | hc <;>
          rw [hu] at hc <;> simp at hc
      simp [hany, hacc]

/-- A subscription with concrete field values for the witnesses. -/
def witnessSubscription : SubscriptionFields where
  chainId := "31337"
  airnodeAddress := "0xA1"
  templateId := "0xt1"
  parameters := "0xpar"
  conditions := "0xcond"
  relayer := "0xA1"
  sponsor := "0xS1"
  requester := "0xR1"
  fulfillFunctionId := "0x206b"

/-- A subscription declared under an id that does not match its derived id. -/
def badSubscription : SubscriptionFields :=
  { witnessSubscription with requester := "0xR2" }

/-- A concrete hash model for the witnesses. -/
def witnessHashModel : HashModel where
  deriveSubscriptionId := fun _ => "0xsub1"
  deriveTemplateId := fun _ _ => "0xt1"
  deriveEndpointId := fun _ _ => "0xe1"

/-- A concrete config: one valid subscription and one with a mismatched id. -/
def witnessPspConfig : PspConfig where
  protoPsp := ["0xsub1", "0xbad"]
  subscriptions := fun subscriptionId =>
    if subscriptionId = "0xsub1" then some witnessSubscription
    else if subscriptionId = "0xbad" then some badSubscription
    else none
  templates := fun templateId =>
    if templateId = "0xt1" then some ⟨"0xe1", "0xpar"⟩ else none
  endpoints := fun endpointId =>
    if endpointId = "0xe1" then some ⟨"ois", "ep"⟩ else none

/-- The single work unit produced from `witnessPspConfig`. -/
def witnessGroup : GroupedSubscriptions where
  subscriptions := [("0xsub1", witnessSubscription)]
  templateId := "0xt1"
  template := ⟨"0xe1", "0xpar"⟩
  endpoint := ⟨"ois", "ep"⟩

/-- Work unit one for the API-isolation witness. -/
def apiUnitOne : GroupedSubscriptions where
  subscriptions := [("0xsubA", witnessSubscription)]
  templateId := "0xt1"
  template := ⟨"0xe1", "0xpar"⟩
  endpoint := ⟨"ois", "ep"⟩

/-- Work unit two for the API-isolation witness. -/
def apiUnitTwo : GroupedSubscriptions where
  subscriptions := [("0xsubB", witnessSubscription)]
  templateId := "0xt2"
  template := ⟨"0xe1", "0xpar"⟩
  endpoint := ⟨"ois", "ep"⟩

/-- An API oracle where unit one's call failed and unit two's succeeded. -/
def apiOracleFailing : String → Option (Option Int) := fun templateId =>
  if templateId = "0xt2" then some (some 42) else none

/-- The same oracle with unit one's call succeeding instead. -/
def apiOracleHealthy : String → Option (Option Int) := fun templateId =>
  if templateId = "0xt1" then some (some 5) else apiOracleFailing templateId

end Airkeeper

namespace Airkeeper

/-- C6 evidence: a merged config whose single chain is not of type `evm`. -/
def nonEvmOnlyChains : List ChainEntry := [{ id := "1", type := "solana" }]

end Airkeeper

/-- C1: within one invocation, for one provider-sponsor pair, the nonces used
by the sponsor wallet's submitted transactions (every `fulfillPspBeaconUpdate`
handed to the provider, successful or not) form the consecutive sequence
`n, n + 1, n + 2, ...` with no gaps and no repeats, where `n` is the pending
transaction count fetched at `currentBlock` — so the first submission uses
exactly the fetched count.  The second conjunct states the same for the
phased pipeline, which pre-assigns `transactionCount + idx` to the sponsor's
subscriptions in `groupSubscriptionsBySponsorWallet`. -/
theorem pspSponsorNonces_gapless {α : Type} (subs : List (String × Airkeeper.PspSubOracle))
    (n count : Nat) (grouped : List α) :
    Airkeeper.attemptNonces (Airkeeper.processPspSponsorWallet subs n)
        = List.range' n
            (Airkeeper.attemptNonces (Airkeeper.processPspSponsorWallet subs n)).length
      ∧ (Airkeeper.assignNonces count grouped).map Prod.snd
        = List.range' count grouped.length :=
  ⟨Airkeeper.attemptNonces_processPspSponsorWallet subs n,
    Airkeeper.assignNonces_snd count grouped⟩

/-- C2: when a subscription reaches submission and the transaction fails, the
loop logs and `continue`s: the sponsor's remaining subscriptions are still
processed in order, and the failed slot's nonce is consumed — processing of
the rest starts at the following nonce. -/
theorem pspSubmitFailure_continues (id : String) (o : Airkeeper.PspSubOracle)
    (rest : List (String × Airkeeper.PspSubOracle)) (n : Nat) (t p : String) (v : Int)
    (g : Airkeeper.GasTarget)
    (ht : o.template = some t) (ha : o.apiResult = some (some v))
    (hd : o.decodedCondition = some p)
    (hc : o.conditionResult Airkeeper.addressZero = some true)
    (hg : o.gasTarget = some g) (hs : o.submitOk = false) :
    Airkeeper.processPspSponsorWallet ((id, o) :: rest) n
      = (id, Airkeeper.SubOutcome.submitFailed n)
        :: Airkeeper.processPspSponsorWallet rest (n + 1) := by
  simp [Airkeeper.processPspSponsorWallet, Airkeeper.processPspSubscription,
    ht, ha, hd, hc, hg, hs]

/-- C2 witness: a failed submission at nonce 5 is followed by the next
subscription of the same sponsor, which submits at nonce 6. -/
theorem pspSubmitFailure_continues_witness :
    Airkeeper.processPspSponsorWallet
        [("0xsub1", Airkeeper.pspFailingOracle), ("0xsub2", Airkeeper.pspSucceedingOracle)] 5
      = ("0xsub1", Airkeeper.SubOutcome.submitFailed 5)
        :: Airkeeper.processPspSponsorWallet [("0xsub2", Airkeeper.pspSucceedingOracle)] 6 :=
  pspSubmitFailure_continues "0xsub1" Airkeeper.pspFailingOracle
    [("0xsub2", Airkeeper.pspSucceedingOracle)] 5 "template" "conditionParameters" 723392020
    { gasPrice := some 1000, maxFeePerGas := none, maxPriorityFeePerGas := none }
    rfl rfl rfl rfl rfl rfl

/-- C5: the PSP condition function is invoked as a read-only call from the
zero-address void signer (the outcome depends on the condition oracle only at
`addressZero`), and a failed call or a `false` result drops the subscription
from this invocation without consuming a nonce, while the remaining
subscriptions are still processed. -/
theorem pspConditionGate (id : String) (o : Airkeeper.PspSubOracle)
    (rest : List (String × Airkeeper.PspSubOracle)) (n : Nat)
    (h : o.conditionResult Airkeeper.addressZero = none
      ∨ o.conditionResult Airkeeper.addressZero = some false) :
    (Airkeeper.processPspSubscription o n).1.isSubmitAttempt = false
      ∧ (Airkeeper.processPspSubscription o n).2 = n
      ∧ Airkeeper.processPspSponsorWallet ((id, o) :: rest) n
        = (id, (Airkeeper.processPspSubscription o n).1)
          :: Airkeeper.processPspSponsorWallet rest n
      ∧ ∀ f : String → Option Bool,
          f Airkeeper.addressZero = o.conditionResult Airkeeper.addressZero →
          Airkeeper.processPspSubscription { o with conditionResult := f } n
            = Airkeeper.processPspSubscription o n := by
  obtain ⟨ot, oa, od, oc, og, os⟩ := o
  simp only at h
  have h12 : (Airkeeper.processPspSubscription ⟨ot, oa, od, oc, og, os⟩ n).1.isSubmitAttempt
        = false
      ∧ (Airkeeper.processPspSubscription ⟨ot, oa, od, oc, og, os⟩ n).2 = n := by
    unfold Airkeeper.processPspSubscription
    rcases ot with _ | t
    · exact ⟨rfl, rfl⟩
    rcases oa with _ | (_ | v)
    · exact ⟨rfl, rfl⟩
    · exact ⟨rfl, rfl⟩
    rcases od with _ | p
    · exact ⟨rfl, rfl⟩
    rcases h with h | h <;> simp [h, Airkeeper.SubOutcome.isSubmitAttempt]
  refine ⟨h12.1, h12.2, ?_, ?_⟩
  · simp only [Airkeeper.processPspSponsorWallet, h12.2]
  · intro f hf
    simp only at hf
    simp only [Airkeeper.processPspSubscription, hf]

/-- C5 witness: a subscription whose condition call returns `false` is skipped
(no nonce consumed), the next subscription still runs, and the outcome is
insensitive to the condition oracle outside the zero address. -/
theorem pspConditionGate_witness :
    (Airkeeper.processPspSubscription Airkeeper.pspConditionFalseOracle 5).1.isSubmitAttempt
        = false
      ∧ (Airkeeper.processPspSubscription Airkeeper.pspConditionFalseOracle 5).2 = 5
      ∧ Airkeeper.processPspSponsorWallet
          [("0xsub1", Airkeeper.pspConditionFalseOracle),
            ("0xsub2", Airkeeper.pspSucceedingOracle)] 5
        = ("0xsub1",
            (Airkeeper.processPspSubscription Airkeeper.pspConditionFalseOracle 5).1)
          :: Airkeeper.processPspSponsorWallet [("0xsub2", Airkeeper.pspSucceedingOracle)] 5
      ∧ ∀ f : String → Option Bool,
          f Airkeeper.addressZero
              = Airkeeper.pspConditionFalseOracle.conditionResult Airkeeper.addressZero →
          Airkeeper.processPspSubscription
              { Airkeeper.pspConditionFalseOracle with conditionResult := f } 5
            = Airkeeper.processPspSubscription Airkeeper.pspConditionFalseOracle 5 :=
  pspConditionGate "0xsub1" Airkeeper.pspConditionFalseOracle
    [("0xsub2", Airkeeper.pspSucceedingOracle)] 5 (Or.inr rfl)

/-- C6: with at least one chain but no chain of type `evm`, the guard of
`src/psp.ts` `beaconUpdate` does not throw: it returns the empty list of evm
chains and the handler completes normally, while the guard of
`handlers/rrp.ts` throws the fatal error as the claim states. -/
theorem pspChainGuard_misses_non_evm_config :
    Airkeeper.pspChainGuard Airkeeper.nonEvmOnlyChains = Except.ok []
      ∧ Airkeeper.rrpChainGuard Airkeeper.nonEvmOnlyChains =
        Except.error
          "One or more evm compatible chain(s) must be defined in the provided config" := by
  constructor <;> rfl

/-- C9 counterexample: for a derivation function that distinguishes protocol
ids (as BIP-32 derivation does, since the protocol id is a path component),
the sponsor wallet used by `beaconUpdate` in `src/psp.ts` is not the wallet
derived with protocol-id "2": that path hardcodes protocol-id "3". -/
theorem beaconUpdateSponsorWallet_not_protocol_two :
    Airkeeper.beaconUpdateSponsorWallet (fun m s p => m ++ "/" ++ s ++ "/" ++ p)
        "mnemonic" "0xsponsor"
      ≠ (fun (m s p : String) => m ++ "/" ++ s ++ "/" ++ p) "mnemonic" "0xsponsor" "2" := by
  decide

/-- C9 (amended): the phased PSP pipeline derives the sponsor wallet for
sponsor `S` under mnemonic `M` by passing exactly `(M, S, "2")` to the BIP-32
derivation, so the same `(M, S)` pair always yields the same wallet; the
legacy `beaconUpdate` path in `src/psp.ts` instead passes protocol-id "3". -/
theorem pspPipelineSponsorWallet_uses_protocol_two {α : Type}
    (derive : String → String → String → α) (mnemonic sponsor : String) :
    Airkeeper.pspPipelineSponsorWallet derive mnemonic sponsor
        = derive mnemonic sponsor "2"
      ∧ Airkeeper.pspProtocolId = "2"
      ∧ Airkeeper.beaconUpdateSponsorWallet derive mnemonic sponsor
        = derive mnemonic sponsor "3" := by
  exact ⟨rfl, rfl, rfl⟩

/-- C3: for an RRP beacon job with on-chain beacon value `b` and fetched API
value `a`, a `requestBeaconUpdate` transaction is attempted only if
`|b - a| * 10^18 / max(b, 1)` is strictly greater than the threshold
`dpTimes100 * 10^14` corresponding to `deviationPercentage` percent (where
`dpTimes100 = Number(deviationPercentage) * 100`); in particular no
transaction is attempted when `a = b` or when the deviation equals the
threshold exactly. -/
theorem rrpDeviationThresholdGate (chainId : String) (job : Airkeeper.RrpJob)
    (o : Airkeeper.RrpJobOracle) (n b : Nat) (a : Int)
    (hb : o.beaconValue = some b) (ha : o.apiValue = some a) :
    ((Airkeeper.processRrpJob chainId job o n).1.isSubmitAttempt = true →
        job.dpTimes100 * 10 ^ 14 < ((b : Int) - a).natAbs * 10 ^ 18 / max b 1)
      ∧ (a = (b : Int) →
        (Airkeeper.processRrpJob chainId job o n).1.isSubmitAttempt = false)
      ∧ (((b : Int) - a).natAbs * 10 ^ 18 / max b 1 = job.dpTimes100 * 10 ^ 14 →
        (Airkeeper.processRrpJob chainId job o n).1.isSubmitAttempt = false) := by
  refine ⟨?_, ?_, ?_⟩
  · intro hsub
    have h := Airkeeper.processRrpJob_submit_gate chainId job o n b a hb ha hsub
    have h2 := h.2
    rwa [Airkeeper.percentageThreshold_div, Airkeeper.rrpDeviation_formula] at h2
  · intro hab
    cases hs : (Airkeeper.processRrpJob chainId job o n).1.isSubmitAttempt with
    | false => rfl
    | true =>
      have h := Airkeeper.processRrpJob_submit_gate chainId job o n b a hb ha hs
      refine absurd ?_ h.1
      unfold Airkeeper.rrpDelta
      rw [← hab]
      simp
  · intro heq
    cases hs : (Airkeeper.processRrpJob chainId job o n).1.isSubmitAttempt with
    | false => rfl
    | true =>
      have h := Airkeeper.processRrpJob_submit_gate chainId job o n b a hb ha hs
      have h2 := h.2
      rw [Airkeeper.percentageThreshold_div, Airkeeper.rrpDeviation_formula, heq] at h2
      exact absurd h2 (lt_irrefl _)

/-- C3 witness: beacon value 100, API value 200, threshold 1%. -/
theorem rrpDeviationThresholdGate_witness :
    ((Airkeeper.processRrpJob "31337" Airkeeper.rrpGateJob Airkeeper.rrpGateOracle
          0).1.isSubmitAttempt = true →
        Airkeeper.rrpGateJob.dpTimes100 * 10 ^ 14
          < ((100 : Int) - 200).natAbs * 10 ^ 18 / max 100 1)
      ∧ ((200 : Int) = (100 : Int) →
        (Airkeeper.processRrpJob "31337" Airkeeper.rrpGateJob Airkeeper.rrpGateOracle
          0).1.isSubmitAttempt = false)
      ∧ (((100 : Int) - 200).natAbs * 10 ^ 18 / max 100 1
            = Airkeeper.rrpGateJob.dpTimes100 * 10 ^ 14 →
        (Airkeeper.processRrpJob "31337" Airkeeper.rrpGateJob Airkeeper.rrpGateOracle
          0).1.isSubmitAttempt = false) :=
  rrpDeviationThresholdGate "31337" Airkeeper.rrpGateJob Airkeeper.rrpGateOracle 0 100 200
    rfl rfl

/-- C7 counterexample: event `r2` is an unmatched `RequestedBeaconUpdate` in
the scanned window and `requestIsAwaitingFulfillment("r2")` is true, yet the
job still submits at nonce 7, because the code consults only the first
unmatched event `r1` (whose check returns false). -/
theorem rrpAnyPendingAwaiting_counterexample :
    Airkeeper.rrpDupOracle.requestedEvents = some [⟨"r1"⟩, ⟨"r2"⟩]
      ∧ Airkeeper.rrpDupOracle.updatedEvents = some []
      ∧ Airkeeper.rrpDupOracle.requestIsAwaitingFulfillment "r2" = some true
      ∧ (Airkeeper.processRrpJob "31337" Airkeeper.rrpGateJob Airkeeper.rrpDupOracle 7).1
        = Airkeeper.RrpJobOutcome.submitted 7 :=
  ⟨rfl, rfl, by decide, by decide⟩

/-- C7 (amended): if the FIRST `RequestedBeaconUpdate` event with no matching
`UpdatedBeacon` event (matched by `requestId`) has
`requestIsAwaitingFulfillment` equal to true, then no new
`requestBeaconUpdate` transaction is submitted for that beacon in this
invocation and the nonce is not consumed. -/
theorem rrpFirstPendingAwaiting_skips (chainId : String) (job : Airkeeper.RrpJob)
    (o : Airkeeper.RrpJobOracle) (n : Nat) (requested updated : List Airkeeper.RrpEvent)
    (ev : Airkeeper.RrpEvent)
    (hreq : o.requestedEvents = some requested) (hupd : o.updatedEvents = some updated)
    (hpend : Airkeeper.pendingRequestedBeaconUpdateEvent requested updated = some ev)
    (haw : o.requestIsAwaitingFulfillment ev.requestId = some true) :
    (Airkeeper.processRrpJob chainId job o n).1.isSubmitAttempt = false
      ∧ (Airkeeper.processRrpJob chainId job o n).2 = n :=
  Airkeeper.processRrpJob_awaiting_skip chainId job o n requested updated ev hreq hupd
    hpend haw

/-- C7 amended witness: a single pending awaiting request blocks submission. -/
theorem rrpFirstPendingAwaiting_skips_witness :
    (Airkeeper.processRrpJob "31337" Airkeeper.rrpGateJob Airkeeper.rrpAwaitingOracle
        3).1.isSubmitAttempt = false
      ∧ (Airkeeper.processRrpJob "31337" Airkeeper.rrpGateJob
          Airkeeper.rrpAwaitingOracle 3).2 = 3 :=
  rrpFirstPendingAwaiting_skips "31337" Airkeeper.rrpGateJob Airkeeper.rrpAwaitingOracle 3
    [⟨"r1"⟩] [] ⟨"r1"⟩ rfl rfl rfl rfl

/-- C10: a beacon job that declares a `chainIds` list not containing the
current chain id is skipped before the API-value lookup, beacon read and
submission (the outcome is `skippedChainMismatch` for every oracle, with the
nonce untouched), while a job with no `chainIds` field is never skipped by
this filter. -/
theorem rrpChainIdFilter (chainId : String) (job : Airkeeper.RrpJob)
    (o : Airkeeper.RrpJobOracle) (n : Nat) :
    (∀ ids, job.chainIds = some ids → chainId ∉ ids →
        Airkeeper.processRrpJob chainId job o n
          = (Airkeeper.RrpJobOutcome.skippedChainMismatch, n))
      ∧ (job.chainIds = none →
        (Airkeeper.processRrpJob chainId job o n).1
          ≠ Airkeeper.RrpJobOutcome.skippedChainMismatch) := by
  constructor
  · intro ids hids hmem
    unfold Airkeeper.processRrpJob
    have hcm : Airkeeper.chainMismatch job.chainIds chainId = true := by
      simp [Airkeeper.chainMismatch, hids, hmem]
    simp [hcm]
  · intro hnone
    exact Airkeeper.processRrpJob_not_chainSkip chainId job o n
      (by simp [Airkeeper.chainMismatch, hnone])

/-- C10 witness: instantiated at a job with no `chainIds` (which is therefore
not chain-filtered) and, vacuously, at the mismatch direction. -/
theorem rrpChainIdFilter_witness :
    (∀ ids, Airkeeper.rrpGateJob.chainIds = some ids → "31337" ∉ ids →
        Airkeeper.processRrpJob "31337" Airkeeper.rrpGateJob Airkeeper.rrpGateOracle 0
          = (Airkeeper.RrpJobOutcome.skippedChainMismatch, 0))
      ∧ (Airkeeper.rrpGateJob.chainIds = none →
        (Airkeeper.processRrpJob "31337" Airkeeper.rrpGateJob Airkeeper.rrpGateOracle 0).1
          ≠ Airkeeper.RrpJobOutcome.skippedChainMismatch) :=
  rrpChainIdFilter "31337" Airkeeper.rrpGateJob Airkeeper.rrpGateOracle 0

/-- C4: for every config and every id derivation (in particular the real
Keccak-256 over the ABI encoding of the nine canonical subscription fields),
every subscription reaching the grouped work units — the input of the
API-call, condition-check and submission phases — has an id equal to its
derived id, and a subscription whose declared id differs from its derived id
appears in no work unit. -/
theorem pspSubscriptionIdInvariant (h : Airkeeper.HashModel)
    (cfg : Airkeeper.PspConfig) :
    (∀ g ∈ Airkeeper.groupedSubscriptionsOf h cfg, ∀ s ∈ g.subscriptions,
        s.1 = h.deriveSubscriptionId s.2)
      ∧ (∀ id sub, cfg.subscriptions id = some sub →
        id ≠ h.deriveSubscriptionId sub →
        ∀ g ∈ Airkeeper.groupedSubscriptionsOf h cfg, ∀ s ∈ g.subscriptions,
        s.1 ≠ id) := by
  constructor
  · intro g hg s hs
    exact (Airkeeper.mem_enabledSubscriptions h cfg s
      (Airkeeper.mem_groupedSubscriptions h cfg g hg s hs)).2
  · intro id sub hsub hne g hg s hs heq
    obtain ⟨h1, h2⟩ := Airkeeper.mem_enabledSubscriptions h cfg s
      (Airkeeper.mem_groupedSubscriptions h cfg g hg s hs)
    rw [heq, hsub] at h1
    have hsame : sub = s.2 := Option.some.inj h1
    rw [heq, ← hsame] at h2
    exact hne h2

/-- C4 witness: in the concrete config, the surviving subscription's id
matches its derived id, and the mismatched subscription `0xbad` is absent
from the work unit. -/
theorem pspSubscriptionIdInvariant_witness :
    ("0xsub1", Airkeeper.witnessSubscription).1
        = Airkeeper.witnessHashModel.deriveSubscriptionId
            ("0xsub1", Airkeeper.witnessSubscription).2
      ∧ ("0xsub1", Airkeeper.witnessSubscription).1 ≠ "0xbad" :=
  ⟨(pspSubscriptionIdInvariant Airkeeper.witnessHashModel Airkeeper.witnessPspConfig).1
      Airkeeper.witnessGroup (by decide) ("0xsub1", Airkeeper.witnessSubscription)
      (by decide),
    (pspSubscriptionIdInvariant Airkeeper.witnessHashModel Airkeeper.witnessPspConfig).2
      "0xbad" Airkeeper.badSubscription (by decide) (by decide)
      Airkeeper.witnessGroup (by decide) ("0xsub1", Airkeeper.witnessSubscription)
      (by decide)⟩

/-- C8: the API-call phase isolates work unit failures.  First conjunct:
changing one work unit's API outcome (in particular failing it) never changes
the cached value of a subscription id outside that unit, so the other units
still complete their calls and the later phases see their values.  Second
conjunct: when every unit covering an id failed (or returned null), the map
has no value for that id, so the later phases skip it.  The phase is a total
function, so the handler still returns normally. -/
theorem apiCallFailureIsolation (units : List Airkeeper.GroupedSubscriptions)
    (o o' : String → Option (Option Int)) (tid id : String) :
    ((∀ t, t ≠ tid → o t = o' t) →
        (∀ w ∈ units, w.templateId = tid → ∀ p ∈ w.subscriptions, p.1 ≠ id) →
        Airkeeper.executeApiCalls units o id = Airkeeper.executeApiCalls units o' id)
      ∧ ((∀ w ∈ units, (∃ p ∈ w.subscriptions, p.1 = id) →
          o w.templateId = none ∨ o w.templateId = some none) →
        Airkeeper.executeApiCalls units o id = none) := by
  constructor
  · intro ho hw
    exact Airkeeper.executeApiCalls_go_agree tid id o o' ho units _ _ hw rfl
  · intro hw
    exact Airkeeper.executeApiCalls_go_none id o units _ hw rfl

/-- C8 witness: with unit one's API call failing, unit two's subscription
still receives its value (the same as under the healthy oracle), while unit
one's subscription has no cached value. -/
theorem apiCallFailureIsolation_witness :
    Airkeeper.executeApiCalls [Airkeeper.apiUnitOne, Airkeeper.apiUnitTwo]
        Airkeeper.apiOracleFailing "0xsubB"
      = Airkeeper.executeApiCalls [Airkeeper.apiUnitOne, Airkeeper.apiUnitTwo]
        Airkeeper.apiOracleHealthy "0xsubB"
      ∧ Airkeeper.executeApiCalls [Airkeeper.apiUnitOne, Airkeeper.apiUnitTwo]
        Airkeeper.apiOracleFailing "0xsubA" = none :=
  ⟨(apiCallFailureIsolation [Airkeeper.apiUnitOne, Airkeeper.apiUnitTwo]
      Airkeeper.apiOracleFailing Airkeeper.apiOracleHealthy "0xt1" "0xsubB").1
      (fun t ht => by simp [Airkeeper.apiOracleHealthy, ht]) (by decide),
    (apiCallFailureIsolation [Airkeeper.apiUnitOne, Airkeeper.apiUnitTwo]
      Airkeeper.apiOracleFailing Airkeeper.apiOracleHealthy "0xt1" "0xsubA").2
      (by decide)⟩
